import Mathlib

/-!
Shallow embedding of the property-listing retrieval, validation, ranking and
decision-support pipeline of the EverythingWorks repository
(src/tools_consolidated/external/portal_search_tools.py,
src/tools_consolidated/property/property_tools.py,
src/tools_consolidated/http/http_tools.py, src/core/decision_support_engine.py),
together with theorems settling the frozen behavioural claims about it.

Machine reals (Python float) are modelled as rationals; Python dicts are
modelled as records whose optional keys are Option fields; network effects are
modelled as explicit outcome parameters.
-/

/-! ## String helpers (Python str operations used by the source) -/

/-- Python membership test `needle in hay` on lists of characters. -/
def listContains (hay needle : List Char) : Bool :=
  needle.isPrefixOf hay ||
    (match hay with
     | [] => false
     | _ :: t => listContains t needle)

/-- Python substring test `needle in hay` for strings. -/
def strContains (hay needle : String) : Bool :=
  listContains hay.toList needle.toList

/-- Python whitespace class for the regex escape on spaces used in the source patterns. -/
def isPySpace (c : Char) : Bool :=
  c == ' ' || c == '\t' || c == '\n' || c == '\r' || c == '\x0b' || c == '\x0c'

/-- Digits of a numeral, folded to a natural number, as Python int() on a digit string. -/
def digitsToNat (l : List Char) : Nat :=
  l.foldl (fun acc c => acc * 10 + (c.toNat - 48)) 0

/-- Python int() applied to a possibly empty digit string: empty raises ValueError,
modelled as none. -/
def parseNatDigits (l : List Char) : Option Nat :=
  if l.isEmpty then none else some (digitsToNat l)

/-- Leftmost-match regex search: try the matcher at every start position from the left,
as Python re.search does. -/
def reSearch (m : List Char → Option β) : List Char → Option β
  | [] => none
  | c :: cs =>
    match m (c :: cs) with
    | some r => some r
    | none => reSearch m cs

/-! ## Price extraction, portal version
(`PortalSearchManager._extract_price`, portal_search_tools.py lines 380-408,
second class definition, which shadows the first).
Patterns tried in order, all with re.IGNORECASE:
`\$\s*([\d,]+)`, `SGD\s*([\d,]+)`, `S\$\s*([\d,]+)`, `([\d,]+)\s*k`.
Each matcher returns (group0 contains a k, captured group 1). -/

def isDigitComma (c : Char) : Bool := c.isDigit || c == ','

/-- Matcher for `\$\s*([\d,]+)` anchored at the current position. -/
def matchDollarNum : List Char → Option (Bool × List Char)
  | '$' :: rest =>
    let rest2 := rest.dropWhile isPySpace
    let run := rest2.takeWhile isDigitComma
    if run.isEmpty then none else some (false, run)
  | _ => none

/-- Matcher for `SGD\s*([\d,]+)` (case-insensitive) anchored at the current position. -/
def matchSgdNum : List Char → Option (Bool × List Char)
  | a :: b :: c :: rest =>
    if a.toLower == 's' && b.toLower == 'g' && c.toLower == 'd' then
      let rest2 := rest.dropWhile isPySpace
      let run := rest2.takeWhile isDigitComma
      if run.isEmpty then none else some (false, run)
    else none
  | _ => none

/-- Matcher for `S\$\s*([\d,]+)` (case-insensitive) anchored at the current position. -/
def matchSDollarNum : List Char → Option (Bool × List Char)
  | a :: '$' :: rest =>
    if a.toLower == 's' then
      let rest2 := rest.dropWhile isPySpace
      let run := rest2.takeWhile isDigitComma
      if run.isEmpty then none else some (false, run)
    else none
  | _ => none

/-- Matcher for `([\d,]+)\s*k` (case-insensitive) anchored at the current position. -/
def matchNumK (l : List Char) : Option (Bool × List Char) :=
  let run := l.takeWhile isDigitComma
  if run.isEmpty then none
  else
    let rest := (l.drop run.length).dropWhile isPySpace
    match rest with
    | c :: _ => if c.toLower == 'k' then some (true, run) else none
    | [] => none

namespace PortalSearchManager

/-- The pattern loop of `_extract_price`: try each pattern in order; on a match,
int() the comma-stripped group (a ValueError aborts the whole function to 0 via the
outer except), multiply by 1000 when group 0 contains a k, return the value when it
lies in the Singapore range 100000..5000000, otherwise fall through to the next
pattern; no pattern left yields 0. -/
def priceLoop : List (List Char → Option (Bool × List Char)) → List Char → Int
  | [], _ => 0
  | m :: ms, l =>
    match reSearch m l with
    | none => priceLoop ms l
    | some (hasK, g1) =>
      match parseNatDigits (g1.filter (fun c => c != ',')) with
      | none => 0
      | some n =>
        let price : Int := if hasK then (n : Int) * 1000 else (n : Int)
        if 100000 ≤ price ∧ price ≤ 5000000 then price else priceLoop ms l

/-- `PortalSearchManager._extract_price` (portal_search_tools.py lines 380-408):
returns an int, with 0 as the no-price sentinel. -/
def extract_price (text : String) : Int :=
  priceLoop [matchDollarNum, matchSgdNum, matchSDollarNum, matchNumK] text.toList

end PortalSearchManager

/-! ## Price extraction, property-tools version
(`extract_price_from_text`, property_tools.py lines 41-64).
Patterns tried in order, with re.IGNORECASE:
`\$\s*(\d{1,3}(?:,\d{3})*)`, `\$\s*(\d+)k`, `SGD\s*(\d{1,3}(?:,\d{3})*)`. -/

/-- Greedy matcher for the regex piece `(?:,\d{3})*`: consume groups of a comma
followed by exactly three digits, returning the consumed prefix. -/
def commaTriples : List Char → List Char
  | ',' :: a :: b :: c :: rest =>
    if a.isDigit && b.isDigit && c.isDigit then
      ',' :: a :: b :: c :: commaTriples rest
    else []
  | _ => []

/-- Matcher for the regex piece `\d{1,3}(?:,\d{3})*` at the current position:
up to three leading digits (greedy), then comma-separated digit triples. -/
def matchGroupedNum (l : List Char) : Option (List Char) :=
  let ds := l.takeWhile Char.isDigit
  if ds.isEmpty then none
  else
    let h := ds.take 3
    some (h ++ commaTriples (l.drop h.length))

/-- Matcher for `\$\s*(\d{1,3}(?:,\d{3})*)` anchored at the current position. -/
def matchDollarGrouped : List Char → Option (List Char)
  | '$' :: rest => matchGroupedNum (rest.dropWhile isPySpace)
  | _ => none

/-- Matcher for `\$\s*(\d+)k` (case-insensitive) anchored at the current position. -/
def matchDollarKilo : List Char → Option (List Char)
  | '$' :: rest =>
    let rest2 := rest.dropWhile isPySpace
    let ds := rest2.takeWhile Char.isDigit
    if ds.isEmpty then none
    else
      match rest2.drop ds.length with
      | c :: _ => if c.toLower == 'k' then some ds else none
      | [] => none
  | _ => none

/-- Matcher for `SGD\s*(\d{1,3}(?:,\d{3})*)` (case-insensitive) anchored at the
current position. -/
def matchSgdGrouped : List Char → Option (List Char)
  | a :: b :: c :: rest =>
    if a.toLower == 's' && b.toLower == 'g' && c.toLower == 'd' then
      matchGroupedNum (rest.dropWhile isPySpace)
    else none
  | _ => none

/-- `extract_price_from_text` (property_tools.py lines 41-64): returns a number or
None; the k multiplier applies only to the second pattern, whose whole match
contains the k. -/
def extract_price_from_text (text : String) : Option Int :=
  if text.isEmpty then none
  else
    let l := text.toList
    match reSearch matchDollarGrouped l with
    | some g => some (digitsToNat (g.filter (fun c => c != ',')) : Int)
    | none =>
      match reSearch matchDollarKilo l with
      | some ds => some ((digitsToNat ds : Int) * 1000)
      | none =>
        match reSearch matchSgdGrouped l with
        | some g => some (digitsToNat (g.filter (fun c => c != ',')) : Int)
        | none => none

/-! ## Listing records
A listing dict as produced by the consolidated portal pipeline
(`PortalSearchManager._process_search_result`, possibly enriched by
`validate_urls`). Option fields model dict keys that may be absent; Python
truthiness of the corresponding `dict.get` calls is made explicit. -/

structure Listing where
  title : String
  url : String
  snippet : String
  domain : String
  source : String
  price : Option Int
  rooms : Int
  location : String
  url_validated : Bool
  name : String
  error : Option String
  blocked_reason : Option String
  metadata : Option String
  deriving Repr, DecidableEq

/-- Python truthiness of `dict.get` on an optional string value: absent keys and
empty strings are falsy. -/
def truthyStr (o : Option String) : Bool :=
  match o with
  | none => false
  | some s => !s.isEmpty

/-- `r.get('price', 0)`: the price with the 0 default for a missing key. -/
def Listing.priceD (l : Listing) : Int := l.price.getD 0

/-- The official-portal list hard-coded in `calculate_ranking_score`
(property_tools.py line 293); note edgeprop.sg is not in it. -/
def official_sites : List String := ["propertyguru.com.sg", "99.co", "hdb.gov.sg"]

/-- `calculate_ranking_score` (property_tools.py lines 284-312), transcribed with
the same sequential score accumulation as the Python code. -/
def calculate_ranking_score (listing : Listing) : Int :=
  let score : Int := 0
  let score := if listing.url_validated then score + 3 else score
  let score := if official_sites.any (fun site => strContains listing.url site) then
      score + 2 else score
  let score := if listing.priceD > 0 then score + 2 else score
  let score := if !listing.location.isEmpty && listing.rooms != 0 then score + 1 else score
  let score := if !listing.snippet.isEmpty then score + 1 else score
  let score := if strContains listing.source "google_cse" then score + 2
    else if strContains listing.source "portal_search" then score + 1
    else score
  score

/-- The ranking score as the amended claim describes it: an independent sum of
bonuses. Written from the amended claim wording, to be compared with
`calculate_ranking_score`. -/
def ranking_score_spec (l : Listing) : Int :=
  (if l.url_validated then 3 else 0) +
  (if official_sites.any (fun site => strContains l.url site) then 2 else 0) +
  (if l.priceD > 0 then 2 else 0) +
  (if !l.location.isEmpty && l.rooms != 0 then 1 else 0) +
  (if !l.snippet.isEmpty then 1 else 0) +
  (if strContains l.source "google_cse" then 2
   else if strContains l.source "portal_search" then 1 else 0)

/-- The ranking score as claim C3 literally states it, including a +1 bonus for
listings sourced from the fallback engine (whose source strings in this code
base are duckduckgo and ddg_fallback). Written from the claim wording, to be
compared with `calculate_ranking_score`. -/
def claim_ranking_score (l : Listing) : Int :=
  (if l.url_validated then 3 else 0) +
  (if official_sites.contains l.domain then 2 else 0) +
  (if l.priceD > 0 then 2 else 0) +
  (if !l.location.isEmpty && l.rooms != 0 then 1 else 0) +
  (if !l.snippet.isEmpty then 1 else 0) +
  (if l.source = "google_cse" then 2
   else if l.source = "duckduckgo" ∨ l.source = "ddg_fallback" then 1 else 0)

/-! ## filter_and_rank_properties (property_tools.py lines 234-324) -/

/-- The location filter predicate (lines 250-259): case-insensitive substring
match of the criterion against location, name or snippet. -/
def location_keep (loc : String) (r : Listing) : Bool :=
  strContains r.location.toLower loc.toLower ||
  strContains r.name.toLower loc.toLower ||
  strContains r.snippet.toLower loc.toLower

/-- The price filter predicate (lines 261-270): keep listings priced at or below
the ceiling, or with the 0/absent price sentinel. -/
def price_keep (max_price_num : ℚ) (r : Listing) : Bool :=
  decide ((r.priceD : ℚ) ≤ max_price_num) || decide (r.priceD = 0)

/-- The flat-type filter predicate (lines 272-281). -/
def flat_type_keep (ft : String) (r : Listing) : Bool :=
  strContains r.name.toLower ft.toLower ||
  strContains ft.toLower (toString r.rooms)

/-- Apply the location filter, skipped when the criterion is falsy (None or
the empty string), as `if location:` does. -/
def apply_location_filter (loc : Option String) (l : List Listing) : List Listing :=
  match loc with
  | none => l
  | some s => if s.isEmpty then l else l.filter (location_keep s)

/-- Apply the price filter, skipped when the criterion is falsy (None or 0),
as `if max_price:` does. -/
def apply_price_filter (mp : Option ℚ) (l : List Listing) : List Listing :=
  match mp with
  | none => l
  | some m => if m = 0 then l else l.filter (price_keep m)

/-- Apply the flat-type filter, skipped when the criterion is falsy. -/
def apply_flat_type_filter (ft : Option String) (l : List Listing) : List Listing :=
  match ft with
  | none => l
  | some s => if s.isEmpty then l else l.filter (flat_type_keep s)

/-- Comparator handed to the stable sort: descending by ranking score
(`sort(key=calculate_ranking_score, reverse=True)`, line 316). -/
def rank_sort_le (a b : Listing) : Bool :=
  decide (calculate_ranking_score b ≤ calculate_ranking_score a)

/-- The surviving listings of `filter_and_rank_properties` before sorting:
error records removed, then the three criterion filters. -/
def fr_filtered (results : List Listing) (location : Option String)
    (max_price : Option ℚ) (flat_type : Option String) : List Listing :=
  apply_flat_type_filter flat_type
    (apply_price_filter max_price
      (apply_location_filter location
        (results.filter (fun r => !truthyStr r.error))))

/-- The sorted survivors: a stable descending sort by ranking score, as the
stable Python list sort with reverse=True. -/
def fr_sorted (results : List Listing) (location : Option String)
    (max_price : Option ℚ) (flat_type : Option String) : List Listing :=
  (fr_filtered results location max_price flat_type).mergeSort rank_sort_le

/-- `filter_and_rank_properties` (property_tools.py lines 234-324): filter by the
criteria, sort descending by ranking score, truncate to k. -/
def filter_and_rank_properties (results : List Listing) (location : Option String)
    (max_price : Option ℚ) (flat_type : Option String) (k : Nat) : List Listing :=
  if (results.filter (fun r => !truthyStr r.error)).isEmpty then []
  else (fr_sorted results location max_price flat_type).take k

/-! ## Decision support engine (src/core/decision_support_engine.py)
Python floats are modelled as rationals. -/

/-- A grant dict: only the amount key is read by the engine
(`grant.get('amount', 0)`). -/
structure Grant where
  amount : ℚ
  deriving Repr, DecidableEq

/-- The PropertyOption dataclass (decision_support_engine.py lines 16-32). -/
structure PropertyOption where
  property_id : String
  address : String
  price : ℚ
  property_type : String
  size_sqft : ℤ
  rooms : String
  age : ℚ
  mrt_distance_m : ℚ
  school_rating : ℚ
  amenities_score : ℚ
  resale_potential : ℚ
  available_grants : List Grant
  monthly_repayment : ℚ
  total_cost_including_grants : ℚ
  deriving Repr, DecidableEq

/-- The user-profile dict keys the engine reads, with their code defaults made
explicit values. -/
structure UserProfile where
  gross_monthly_income : ℚ
  room_count : String
  must_have_amenities : List String
  deriving Repr, DecidableEq

/-- The six factor scores, as a record standing for the scores dict. -/
structure FactorScores where
  affordability : ℚ
  location_convenience : ℚ
  investment_potential : ℚ
  lifestyle_fit : ℚ
  grant_eligibility : ℚ
  timing : ℚ
  deriving Repr, DecidableEq

namespace DecisionSupportEngine

/-- `DecisionSupportEngine._calculate_factor_scores`
(decision_support_engine.py lines 77-135). -/
def calculate_factor_scores (prop : PropertyOption) (user : UserProfile) :
    FactorScores :=
  let affordability_ratio := prop.monthly_repayment / user.gross_monthly_income
  let affordability_score : ℚ :=
    if affordability_ratio ≤ 0.25 then 10
    else if affordability_ratio ≤ 0.30 then 8
    else if affordability_ratio ≤ 0.35 then 6
    else if affordability_ratio ≤ 0.40 then 4
    else 2
  let mrt_score := max 0 (10 - prop.mrt_distance_m / 100)
  let location_score := (mrt_score + prop.amenities_score) / 2
  let age_penalty := max 0 (prop.age / 10)
  let investment_score := prop.resale_potential - age_penalty
  let lifestyle_base : ℚ := 5
  let lifestyle_rooms :=
    if prop.rooms = user.room_count then lifestyle_base + 2 else lifestyle_base
  let lifestyle_score :=
    if user.must_have_amenities.length > 0 then
      lifestyle_rooms + min 3 (prop.amenities_score / 3)
    else lifestyle_rooms
  let total_grants := (prop.available_grants.map Grant.amount).sum
  let grant_score := min 10 (total_grants / 10000)
  { affordability := affordability_score
    location_convenience := min 10 location_score
    investment_potential := max 0 (min 10 investment_score)
    lifestyle_fit := min 10 lifestyle_score
    grant_eligibility := grant_score
    timing := 7 }

/-- Python round to 2 decimal places on the rational model (round half up; the
half-to-even difference of Python floats only concerns exact .005 ties). -/
def round2 (q : ℚ) : ℚ := ((round (q * 100) : ℤ) : ℚ) / 100

/-- `DecisionSupportEngine._calculate_weighted_score`
(decision_support_engine.py lines 137-144) with the fixed weights of lines
38-45. -/
def calculate_weighted_score (s : FactorScores) : ℚ :=
  round2 (s.affordability * 0.25 + s.location_convenience * 0.20 +
    s.investment_potential * 0.15 + s.lifestyle_fit * 0.20 +
    s.grant_eligibility * 0.15 + s.timing * 0.05)

/-- The risk-assessment dict returned by `_assess_financial_risk`. -/
structure RiskAssessment where
  risk_level : String
  risk_factors : List String
  affordability_ratio : ℚ
  recommended_emergency_fund : ℚ
  deriving Repr, DecidableEq

/-- `DecisionSupportEngine._assess_financial_risk`
(decision_support_engine.py lines 225-253). -/
def assess_financial_risk (prop : PropertyOption) (user : UserProfile) :
    RiskAssessment :=
  let affordability_ratio := prop.monthly_repayment / user.gross_monthly_income
  let lf : String × List String :=
    if affordability_ratio > 0.35 then ("High", ["High debt-to-income ratio"])
    else if affordability_ratio > 0.30 then
      ("Medium", ["Moderate debt-to-income ratio"])
    else ("Low", [])
  let factors := lf.2
  let factors := if prop.age > 30 then
      factors ++ ["Older property with higher maintenance costs"] else factors
  let factors := if prop.property_type = "HDB" ∧ prop.age > 60 then
      factors ++ ["Limited remaining lease years"] else factors
  { risk_level := lf.1
    risk_factors := factors
    affordability_ratio := affordability_ratio
    recommended_emergency_fund := prop.monthly_repayment * 6 }

/-- One entry of the ranked analysis list built by `analyze_options`. -/
structure AnalysisEntry where
  property : PropertyOption
  factor_scores : FactorScores
  overall_score : ℚ
  deriving Repr, DecidableEq

/-- The result dict of `analyze_options` (the summary and next-steps strings are
presentation text and carry no further data). -/
structure AnalysisResult where
  ranked_properties : List AnalysisEntry
  risk_assessment : RiskAssessment
  deriving Repr, DecidableEq

/-- Comparator of the ranking sort of `analyze_options` line 68: stable
descending by overall score. -/
def entry_sort_le (a b : AnalysisEntry) : Bool :=
  decide (b.overall_score ≤ a.overall_score)

/-- `DecisionSupportEngine.analyze_options` (decision_support_engine.py lines
47-75): none models the error dict returned for an empty input. -/
def analyze_options (properties : List PropertyOption) (user : UserProfile) :
    Option AnalysisResult :=
  if properties.isEmpty then none
  else
    let entries := properties.map (fun p =>
      let scores := calculate_factor_scores p user
      { property := p, factor_scores := scores
        overall_score := calculate_weighted_score scores : AnalysisEntry })
    let ranked := entries.mergeSort entry_sort_le
    match ranked with
    | [] => none
    | top :: _ =>
      some { ranked_properties := ranked
             risk_assessment := assess_financial_risk top.property user }

end DecisionSupportEngine

/-! ## Portal search adapter
(`PortalSearchManager.search_portals` and helpers, portal_search_tools.py lines
208-513, second class definition, which shadows the first). The two external
search engines are modelled as explicit outcome parameters: a list of raw hits
on success, an error message when the call raised (the code logs it and keeps
going). -/

/-- A raw search-engine hit dict, as built in `_google_cse_search` and
`_duckduckgo_search` (title, url, snippet, domain, source keys always set). -/
structure RawHit where
  title : String
  url : String
  snippet : String
  domain : String
  source : String
  deriving Repr, DecidableEq

/-- Outcome of calling one external search engine: its hit list, or the
exception it raised. An unconfigured or empty engine is `hits []`. -/
inductive EngineOutcome where
  | hits (l : List RawHit)
  | failure (msg : String)
  deriving Repr, DecidableEq

/-- The hits an engine contributed: an exception is caught, logged and treated
as no hits. -/
def EngineOutcome.recovered : EngineOutcome → List RawHit
  | .hits l => l
  | .failure _ => []

/-- Python title() on a string: uppercase a letter starting a run of letters,
lowercase the rest, as used for the matched area names. -/
def pyTitleGo : Bool → List Char → List Char
  | _, [] => []
  | prevAlpha, c :: t =>
    if c.isAlpha then
      (if prevAlpha then c.toLower else c.toUpper) :: pyTitleGo true t
    else c :: pyTitleGo false t

/-- Python str.title(). -/
def pyTitle (s : String) : String := String.mk (pyTitleGo false s.toList)

/-- Matcher for `(\d+)[-\s]?(room|bed)` anchored at the current position,
returning the captured number of rooms. -/
def matchRooms (l : List Char) : Option Nat :=
  let ds := l.takeWhile Char.isDigit
  if ds.isEmpty then none
  else
    let rest := l.drop ds.length
    let rest2 :=
      match rest with
      | c :: t => if c == '-' || isPySpace c then t else rest
      | [] => []
    if "room".toList.isPrefixOf rest2 || "bed".toList.isPrefixOf rest2 then
      some (digitsToNat ds)
    else none

namespace PortalSearchManager

/-- `PortalSearchManager._extract_rooms` (portal_search_tools.py lines 410-416):
search `(\d+)[-\s]?(room|bed)` in the lowercased text, 0 when absent. -/
def extract_rooms (text : String) : Int :=
  match reSearch matchRooms text.toLower.toList with
  | some n => (n : Int)
  | none => 0

/-- The gazetteer of `PortalSearchManager._extract_location`
(portal_search_tools.py lines 420-425). -/
def singapore_areas : List String :=
  ["tampines", "jurong", "woodlands", "punggol", "sengkang", "bishan",
   "toa payoh", "bedok", "hougang", "ang mo kio", "clementi", "bukit batok",
   "yishun", "choa chu kang", "pasir ris", "sembawang", "kallang", "geylang",
   "bukit timah", "orchard", "marina bay", "sentosa"]

/-- `PortalSearchManager._extract_location` (portal_search_tools.py lines
418-432): first gazetteer area found in the lowercased text, title-cased;
the generic sentinel Singapore otherwise. -/
def extract_location (text : String) : String :=
  match singapore_areas.find? (fun area => strContains text.toLower area) with
  | some area => pyTitle area
  | none => "Singapore"

/-- The netloc of urllib.parse.urlparse: strip a leading `scheme:` (a letter
followed by letters, digits, `+`, `-` or `.`), then, when `//` follows, the
authority up to the next `/`, `?` or `#`; empty otherwise. -/
def urlparse_netloc (url : String) : String :=
  let l := url.toList
  let rest :=
    match l.span (fun c => c.isAlphanum || c == '+' || c == '-' || c == '.') with
    | (pre, ':' :: r) =>
      if (pre.headD ' ').isAlpha && pre.all (fun c => c.isAlphanum || c == '+' || c == '-' || c == '.') then r
      else l
    | _ => l
  match rest with
  | '/' :: '/' :: r =>
    String.mk (r.takeWhile (fun c => c != '/' && c != '?' && c != '#'))
  | _ => ""

/-- The supported portal list (portal_search_tools.py lines 212-217). -/
def supported_sites : List String :=
  ["propertyguru.com.sg", "99.co", "hdb.gov.sg", "edgeprop.sg"]

/-- `PortalSearchManager._is_valid_property_url` (portal_search_tools.py lines
434-452): the lowercased netloc must contain a supported site; the path check
afterwards accepts every path. -/
def is_valid_property_url (url : String) : Bool :=
  supported_sites.any (fun site => strContains (urlparse_netloc url).toLower site)

/-- `PortalSearchManager._process_search_result` (portal_search_tools.py lines
352-378): drop hits without a valid portal URL, extract price, rooms and
location, trim title and snippet. -/
def process_search_result (r : RawHit) : Option Listing :=
  let price := extract_price (r.title ++ " " ++ r.snippet)
  if r.url.isEmpty || !is_valid_property_url r.url then none
  else
    some { title := r.title.trim
           url := r.url
           snippet := r.snippet.trim
           domain := r.domain
           source := r.source
           price := some price
           rooms := extract_rooms r.title
           location := extract_location r.title
           url_validated := false
           name := ""
           error := none
           blocked_reason := none
           metadata := none }

/-- `PortalSearchManager.search_portals` (portal_search_tools.py lines 223-261):
collect the primary-engine hits (exceptions absorbed), extend with the fallback
engine when fewer than max_results, process the first max_results hits. -/
def search_portals (google ddg : EngineOutcome) (max_results : Nat) :
    List Listing :=
  let results := google.recovered
  let results :=
    if results.length < max_results then results ++ ddg.recovered else results
  (results.take max_results).filterMap process_search_result

end PortalSearchManager

/-- The `search_property_portals` tool (portal_search_tools.py lines 457-475):
delegates to the manager; its own except-handler maps any escaped exception to
the empty list, so in the pure model it is the manager call itself. -/
def search_property_portals (google ddg : EngineOutcome) (max_results : Nat) :
    List Listing :=
  PortalSearchManager.search_portals google ddg max_results

/-! ## URL validation (`validate_urls`, http_tools.py lines 122-172)
The network is modelled as a map from URL to the observed outcome of the
robots check, the HEAD request and the GET request. -/

/-- Observed network outcome for one URL. -/
structure NetOutcome where
  robots_allowed : Bool
  head_raises : Bool
  exc_msg : String
  head_status : Nat
  get_success : Bool
  get_status : Nat
  json_ld : Option String
  deriving Repr, DecidableEq

/-- The per-listing body of the `validate_urls` loop: enrich the listing with
url_validated, blocked_reason and structured metadata; never drop it. -/
def validate_one (net : String → NetOutcome) (listing : Listing) : Listing :=
  if listing.url.isEmpty then
    { listing with
      url_validated := false
      blocked_reason := some "no_url" }
  else
    let o := net listing.url
    if !o.robots_allowed then
      { listing with
        url_validated := false
        blocked_reason := some "robots_disallow" }
    else if o.head_raises then
      { listing with
        url_validated := false
        blocked_reason := some ("exception:" ++ o.exc_msg) }
    else if o.head_status != 200 then
      { listing with
        url_validated := false
        blocked_reason := some ("head_status_" ++ toString o.head_status) }
    else if o.get_success && o.get_status == 200 then
      { listing with
        url_validated := true
        metadata :=
          match o.json_ld with
          | some m => some m
          | none => listing.metadata }
    else
      { listing with
        url_validated := false
        blocked_reason := some ("get_failed_" ++ toString o.get_status) }

/-- `validate_urls` (http_tools.py lines 122-172): the append loop over the
input listings. -/
def validate_urls (net : String → NetOutcome) : List Listing → List Listing
  | [] => []
  | l :: ls => validate_one net l :: validate_urls net ls

/-! ## Property validation (`validate_property_data`, property_tools.py lines
66-158). -/

/-- An input property dict of `validate_property_data`; Option fields are keys
that may be absent or hold a falsy value. -/
structure PropRecord where
  title : String
  url : String
  snippet : String
  price : Option Int
  rooms : Option Int
  location : Option String
  deriving Repr, DecidableEq

/-- A property dict after `validate_property_data`: rooms is none for the
Not specified sentinel, url_type records the listing/category classification. -/
structure ValidatedProp where
  title : String
  url : String
  snippet : String
  price : Option Int
  rooms : Option Int
  location : String
  url_type : String
  data_quality_score : Int
  deriving Repr, DecidableEq

/-- Python truthiness of an optional int value (absent and 0 are falsy). -/
def truthyInt (o : Option Int) : Bool :=
  match o with
  | none => false
  | some n => n != 0

/-- The gazetteer of `validate_property_data` (property_tools.py lines
109-114); it differs from the portal one. -/
def vpd_sg_areas : List String :=
  ["tampines", "jurong", "woodlands", "punggol", "sengkang", "bishan",
   "toa payoh", "bedok", "hougang", "ang mo kio", "clementi", "bukit batok",
   "yishun", "bukit merah", "queenstown", "kallang", "marine parade",
   "pasir ris", "choa chu kang", "bukit panjang", "sembawang"]

/-- The specific-listing URL indicators (property_tools.py lines 125-128). -/
def listing_indicators : List String :=
  ["/listing/", "/property/", "/unit/", "/flat/", "/apartment/",
   "id=", "propertyid", "listingid"]

/-- The per-item enrichment of `validate_property_data` (price, rooms and
location completion, URL classification, data-quality score). -/
def enrich_property (p : PropRecord) : ValidatedProp :=
  let price0 :=
    if truthyInt p.price then p.price
    else
      let fromTitle := extract_price_from_text p.title
      if truthyInt fromTitle then fromTitle else extract_price_from_text p.snippet
  let priceOut : Option Int :=
    match price0 with
    | some v => if v > 100000 then some v else none
    | none => none
  let rooms0 :=
    if truthyInt p.rooms then p.rooms
    else
      match reSearch matchRooms p.title.toLower.toList with
      | some n => some (n : Int)
      | none =>
        match reSearch matchRooms p.snippet.toLower.toList with
        | some n => some (n : Int)
        | none => p.rooms
  let roomsOut : Option Int :=
    match rooms0 with
    | some n => if n != 0 then some n else none
    | none => none
  let locationOut : String :=
    if !truthyStr p.location || p.location == some "Singapore" then
      match vpd_sg_areas.find? (fun area =>
          strContains p.title.toLower area || strContains p.url.toLower area) with
      | some area => pyTitle area
      | none =>
        match p.location with
        | some s => if s.isEmpty then "Singapore" else s
        | none => "Singapore"
    else p.location.getD "Singapore"
  let is_specific := listing_indicators.any (fun ind => strContains p.url.toLower ind)
  let quality : Int :=
    (if priceOut.isSome then 3 else 0) +
    (if roomsOut.isSome then 2 else 0) +
    (if locationOut != "Singapore" then 2 else 0) +
    (if is_specific then 3 else 0)
  { title := p.title
    url := p.url
    snippet := p.snippet
    price := priceOut
    rooms := roomsOut
    location := locationOut
    url_type := if is_specific then "specific_listing" else "category_page"
    data_quality_score := quality }

/-- The basic-validation guard (property_tools.py lines 72-74): items without a
URL or a title are skipped. -/
def keep_property (p : PropRecord) : Bool :=
  !p.url.isEmpty && !p.title.isEmpty

/-- The append loop of `validate_property_data`: skip items failing the guard,
enrich the rest in order. -/
def vpd_loop : List PropRecord → List ValidatedProp
  | [] => []
  | p :: ps =>
    if keep_property p then enrich_property p :: vpd_loop ps else vpd_loop ps

/-- Comparator of the final sort of `validate_property_data` (line 156):
stable descending by data-quality score. -/
def vpd_sort_le (a b : ValidatedProp) : Bool :=
  decide (b.data_quality_score ≤ a.data_quality_score)

/-- `validate_property_data` (property_tools.py lines 66-158): keep and enrich,
then sort by data-quality score, highest first. -/
def validate_property_data (properties : List PropRecord) : List ValidatedProp :=
  (vpd_loop properties).mergeSort vpd_sort_le

/-! ## Cache (portal_search_tools.py lines 22-35)
Modelled from the spec: the file declares the TTL/LRU cache store `_cache`, its
lock and the configurable parameters CACHE_TTL (default 60) and CACHE_MAX_ITEMS
(default 200), and `search_portals` calls `self._cache_get` and
`self._cache_set`, but the bodies of `_make_cache_key`, `_cache_get` and
`_cache_set` are missing from the source (the first version of the file breaks
off mid-function at line 192). The operations below transcribe spec section 4.1:
get purges an expired entry lazily and refreshes recency, set inserts
most-recent and evicts least-recently-used entries until within capacity. -/

/-- One cache entry: key, insertion time, stored value. -/
structure CacheEntry (V : Type) where
  key : String
  inserted_at : Nat
  value : V
  deriving Repr, DecidableEq

/-- Cache TTL in seconds (PORTAL_SEARCH_CACHE_TTL default). -/
def CACHE_TTL : Nat := 60

/-- Cache capacity in keys (PORTAL_SEARCH_CACHE_MAX default). -/
def CACHE_MAX_ITEMS : Nat := 200

/-- Modelled from the spec: cache lookup at time now. The cache list is ordered
least-recently-used first. A hit within the TTL returns the value and moves the
entry to the most-recent end; an expired entry is purged and the lookup misses. -/
def cache_get (now : Nat) (c : List (CacheEntry V)) (k : String) :
    Option V × List (CacheEntry V) :=
  match c.find? (fun e => e.key == k) with
  | none => (none, c)
  | some e =>
    let rest := c.filter (fun x => x.key != k)
    if now ≤ e.inserted_at + CACHE_TTL then (some e.value, rest ++ [e])
    else (none, rest)

/-- Modelled from the spec: cache insertion at time now. The new entry replaces
any entry with the same key at the most-recent end; least-recently-used entries
are evicted until the capacity bound holds. -/
def cache_set (now : Nat) (c : List (CacheEntry V)) (k : String) (v : V) :
    List (CacheEntry V) :=
  let c1 := c.filter (fun x => x.key != k) ++ [⟨k, now, v⟩]
  c1.drop (c1.length - CACHE_MAX_ITEMS)

/-! ## Helper lemmas -/

/-- The sequential score accumulation of `calculate_ranking_score` equals the
independent sum of its bonuses. -/
theorem calculate_ranking_score_eq_spec (l : Listing) :
    calculate_ranking_score l = ranking_score_spec l := by
  simp only [calculate_ranking_score, ranking_score_spec]
  split_ifs <;> omega

/-- `validate_urls` is the per-item enrichment mapped over the input. -/
theorem validate_urls_eq_map (net : String → NetOutcome) (ls : List Listing) :
    validate_urls net ls = ls.map (validate_one net) := by
  induction ls with
  | nil => rfl
  | cons l ls ih => simp [validate_urls, ih]

/-- The `validate_property_data` loop keeps exactly the guarded items and
enriches them in order. -/
theorem vpd_loop_eq (ps : List PropRecord) :
    vpd_loop ps = (ps.filter keep_property).map enrich_property := by
  induction ps with
  | nil => rfl
  | cons p ps ih =>
    by_cases h : keep_property p <;> simp [vpd_loop, List.filter_cons, h, ih]

/-- The portal price loop only ever returns 0 or a value that passed the
100000..5000000 range guard. -/
theorem priceLoop_zero_or_range
    (ms : List (List Char → Option (Bool × List Char))) (l : List Char) :
    PortalSearchManager.priceLoop ms l = 0 ∨
      (100000 ≤ PortalSearchManager.priceLoop ms l ∧
        PortalSearchManager.priceLoop ms l ≤ 5000000) := by
  induction ms with
  | nil => left; rfl
  | cons m ms ih =>
    rw [PortalSearchManager.priceLoop]
    split
    · exact ih
    · split
      · left; rfl
      · dsimp only
        split_ifs <;> first | (right; assumption) | exact ih

/-- The affordability factor is the threshold case split on the
repayment-to-income ratio. -/
theorem affordability_score_eq (prop : PropertyOption) (user : UserProfile) :
    (DecisionSupportEngine.calculate_factor_scores prop user).affordability =
      (if prop.monthly_repayment / user.gross_monthly_income ≤ 0.25 then (10 : ℚ)
       else if prop.monthly_repayment / user.gross_monthly_income ≤ 0.30 then 8
       else if prop.monthly_repayment / user.gross_monthly_income ≤ 0.35 then 6
       else if prop.monthly_repayment / user.gross_monthly_income ≤ 0.40 then 4
       else 2) := rfl

/-- Bounds for the two-decimal rounding: a weighted score in [0, 10] stays in
[0, 10] after rounding. -/
theorem round2_bounds (q : ℚ) (h0 : 0 ≤ q) (h1 : q ≤ 10) :
    0 ≤ DecisionSupportEngine.round2 q ∧ DecisionSupportEngine.round2 q ≤ 10 := by
  unfold DecisionSupportEngine.round2
  have hr := round_eq (q * 100)
  constructor
  · apply div_nonneg _ (by norm_num)
    rw [hr]
    have h : (0 : ℤ) ≤ ⌊q * 100 + 1 / 2⌋ := Int.floor_nonneg.mpr (by linarith)
    exact_mod_cast h
  · rw [div_le_iff₀ (by norm_num : (0 : ℚ) < 100)]
    rw [hr]
    have hfl : ((⌊q * 100 + 1 / 2⌋ : ℤ) : ℚ) ≤ q * 100 + 1 / 2 := Int.floor_le _
    have hlt : ((⌊q * 100 + 1 / 2⌋ : ℤ) : ℚ) < 1001 := by linarith
    have hz : (⌊q * 100 + 1 / 2⌋ : ℤ) < 1001 := by exact_mod_cast hlt
    have hle : (⌊q * 100 + 1 / 2⌋ : ℤ) ≤ 1000 := by omega
    calc ((⌊q * 100 + 1 / 2⌋ : ℤ) : ℚ) ≤ 1000 := by exact_mod_cast hle
      _ = 10 * 100 := by norm_num

/-- Transitivity of the descending ranking comparator. -/
theorem rank_sort_le_trans (a b c : Listing) (hab : rank_sort_le a b = true)
    (hbc : rank_sort_le b c = true) : rank_sort_le a c = true := by
  simp only [rank_sort_le, decide_eq_true_eq] at hab hbc ⊢
  exact le_trans hbc hab

/-- Totality of the descending ranking comparator. -/
theorem rank_sort_le_total (a b : Listing) :
    (rank_sort_le a b || rank_sort_le b a) = true := by
  simp only [rank_sort_le, Bool.or_eq_true, decide_eq_true_eq]
  exact le_total _ _

/-- The sorted stage of filter_and_rank_properties is pairwise descending by
ranking score. -/
theorem fr_sorted_pairwise (results : List Listing) (loc : Option String)
    (mp : Option ℚ) (ft : Option String) :
    List.Pairwise
      (fun a b => calculate_ranking_score b ≤ calculate_ranking_score a)
      (fr_sorted results loc mp ft) := by
  have hs := @List.sorted_mergeSort Listing rank_sort_le
    rank_sort_le_trans rank_sort_le_total (fr_filtered results loc mp ft)
  exact hs.imp (fun h => by simpa [rank_sort_le] using h)

/-- Setting url_validated strictly increases the ranking score by the +3
bonus; no other bonus reads the flag. -/
theorem score_validated_gt (u : Listing) (hu : u.url_validated = false) :
    calculate_ranking_score u <
      calculate_ranking_score { u with url_validated := true } := by
  rw [calculate_ranking_score_eq_spec, calculate_ranking_score_eq_spec]
  simp only [ranking_score_spec, hu]
  simp only [if_true, if_false, Bool.false_eq_true]
  have h2 : ({ u with url_validated := true } : Listing).url = u.url := rfl
  have h3 : ({ u with url_validated := true } : Listing).priceD = u.priceD := rfl
  have h4 : ({ u with url_validated := true } : Listing).location = u.location := rfl
  have h5 : ({ u with url_validated := true } : Listing).rooms = u.rooms := rfl
  have h6 : ({ u with url_validated := true } : Listing).snippet = u.snippet := rfl
  have h7 : ({ u with url_validated := true } : Listing).source = u.source := rfl
  rw [h2, h3, h4, h5, h6, h7]
  split_ifs <;> omega

/-! ## Claim C1: what validation preserves -/

/-- A property record lacking a URL, dropped by validate_property_data. -/
def c1_missing_url : PropRecord where
  title := "3 room flat in Tampines $500,000"
  url := ""
  snippet := "nice flat"
  price := none
  rooms := none
  location := none

/-- C1: the claim fails on the code. `validate_property_data` does not return a
same-length, same-order sequence: an item without a URL is dropped entirely
(and the survivors are re-sorted by data-quality score). -/
theorem C1_counterexample :
    validate_property_data [c1_missing_url] = [] ∧
      ([c1_missing_url] : List PropRecord).length = 1 := by
  have hk : keep_property c1_missing_url = false := by decide
  constructor
  · simp [validate_property_data, vpd_loop, hk]
  · rfl

/-- C1 amended: `validate_urls` returns a sequence of the same length and order
as its input, each item being its input item enriched in place (validation flag,
blocked reason, metadata) with all identifying fields unchanged; but
`validate_property_data` instead drops items lacking a URL or title and returns
the enriched survivors re-sorted by descending data-quality score. -/
theorem C1_amended (net : String → NetOutcome) (ls : List Listing) (i : Nat)
    (ps : List PropRecord) :
    (validate_urls net ls).length = ls.length ∧
    (validate_urls net ls)[i]? = (ls[i]?).map (validate_one net) ∧
    (∀ l : Listing,
      (validate_one net l).title = l.title ∧
      (validate_one net l).url = l.url ∧
      (validate_one net l).snippet = l.snippet ∧
      (validate_one net l).domain = l.domain ∧
      (validate_one net l).source = l.source ∧
      (validate_one net l).price = l.price ∧
      (validate_one net l).rooms = l.rooms ∧
      (validate_one net l).location = l.location) ∧
    (validate_property_data ps).Perm
      ((ps.filter keep_property).map enrich_property) ∧
    List.Pairwise
      (fun a b : ValidatedProp => b.data_quality_score ≤ a.data_quality_score)
      (validate_property_data ps) := by
  refine ⟨?_, ?_, ?_, ?_, ?_⟩
  · rw [validate_urls_eq_map]; exact List.length_map ls _
  · rw [validate_urls_eq_map]; exact List.getElem?_map _ _ _
  · intro l
    simp only [validate_one]
    split_ifs <;> simp
  · unfold validate_property_data
    rw [vpd_loop_eq]
    exact List.mergeSort_perm _ _
  · have hs := @List.sorted_mergeSort ValidatedProp vpd_sort_le
      (fun a b c hab hbc => by
        simp only [vpd_sort_le, decide_eq_true_eq] at hab hbc ⊢
        omega)
      (fun a b => by
        simp only [vpd_sort_le, Bool.or_eq_true, decide_eq_true_eq]
        exact le_total _ _)
      (vpd_loop ps)
    exact hs.imp (fun h => by
      simpa [vpd_sort_le, decide_eq_true_eq] using h)

/-! ## Claim C3: the ranking-score formula -/

/-- A concrete listing sourced from the fallback engine (source duckduckgo),
for the C3 counterexample. -/
def c3_listing : Listing where
  title := "3 room flat"
  url := "https://www.99.co/listing/42"
  snippet := "cosy flat"
  domain := "99.co"
  source := "duckduckgo"
  price := some 500000
  rooms := 3
  location := "Tampines"
  url_validated := false
  name := ""
  error := none
  blocked_reason := none
  metadata := none

/-- C3: the claim fails on the code. For a listing sourced from the fallback
engine (source duckduckgo), the code gives no source bonus — its +1 branch
tests for the substring portal_search, which no engine in this code base ever
writes — so the computed score is 6 while the claimed sum is 7. -/
theorem C3_counterexample :
    calculate_ranking_score c3_listing = 6 ∧
      claim_ranking_score c3_listing = 7 := by
  constructor
  · decide
  · decide

/-- C3 amended: the ranking score equals the sum of: +3 if url_validated; +2 if
the URL string contains one of propertyguru.com.sg, 99.co, hdb.gov.sg as a
substring (edgeprop.sg gets no bonus, and the check reads the URL, not the
domain field); +2 if the price is known and positive; +1 if location is
non-empty and rooms non-zero; +1 if a snippet exists; +2 if the source string
contains google_cse, else +1 if it contains portal_search — listings from the
fallback engines, whose sources are duckduckgo and ddg_fallback, receive no
source bonus. -/
theorem C3_amended (l : Listing) :
    calculate_ranking_score l = ranking_score_spec l :=
  calculate_ranking_score_eq_spec l

/-! ## Claim C2: price extraction -/

/-- C2: the claim fails on the code. The portal extractor
`PortalSearchManager._extract_price` returns the int 0, not an absent value,
for text containing no price; and `extract_price_from_text` maps "800k"
(without a dollar sign) to None rather than 800000, since its k pattern
requires a leading $. -/
theorem C2_counterexample :
    PortalSearchManager.extract_price "no price here" = 0 ∧
      extract_price_from_text "800k" = none := by
  constructor
  · decide
  · decide

/-- C2 amended: `PortalSearchManager._extract_price` maps "$800,000" and "800k"
to 800000, and returns the sentinel 0 (not an absent value) both for text with
no price and for out-of-range values; every non-zero result lies in the range
100000..5000000. `extract_price_from_text` maps "$800,000" to 800000 and
no-price text to None, but maps "800k" to None (its k pattern requires a $),
and applies no range check at all ("$6,000,000" comes back as 6000000; the
one-sided > 100000 check lives in validate_property_data instead). -/
theorem C2_amended (t : String) :
    PortalSearchManager.extract_price "$800,000" = 800000 ∧
    PortalSearchManager.extract_price "800k" = 800000 ∧
    PortalSearchManager.extract_price "no price here" = 0 ∧
    PortalSearchManager.extract_price "$6,000,000" = 0 ∧
    (PortalSearchManager.extract_price t = 0 ∨
      (100000 ≤ PortalSearchManager.extract_price t ∧
        PortalSearchManager.extract_price t ≤ 5000000)) ∧
    extract_price_from_text "$800,000" = some 800000 ∧
    extract_price_from_text "800k" = none ∧
    extract_price_from_text "no price here" = none ∧
    extract_price_from_text "$6,000,000" = some 6000000 := by
  refine ⟨by decide, by decide, by decide, by decide, ?_, by decide, by decide,
    by decide, by decide⟩
  exact priceLoop_zero_or_range _ _

/-! ## Claim C4: unknown price survives the price filter -/

/-- C4: a listing with an absent or zero price survives the price filter of
filter_and_rank_properties for every maxPrice value: the filter keeps any
listing whose price defaults to the 0 sentinel. -/
theorem C4_unknown_price_survives (mp : Option ℚ) (l : List Listing)
    (r : Listing) (hmem : r ∈ l) (hp : r.priceD = 0) :
    r ∈ apply_price_filter mp l := by
  cases mp with
  | none => exact hmem
  | some m =>
    by_cases hm : m = 0
    · simpa [apply_price_filter, hm] using hmem
    · simp only [apply_price_filter, if_neg hm]
      exact List.mem_filter.mpr ⟨hmem, by simp [price_keep, hp]⟩

/-- A concrete listing with no price, for the C4 witness. -/
def c4_listing : Listing where
  title := "3 room flat"
  url := "https://www.99.co/listing/1"
  snippet := "cosy"
  domain := "www.99.co"
  source := "duckduckgo"
  price := none
  rooms := 3
  location := "Tampines"
  url_validated := false
  name := ""
  error := none
  blocked_reason := none
  metadata := none

/-- C4 witness: a concrete priceless listing survives a concrete price filter. -/
theorem C4_witness : c4_listing ∈ apply_price_filter (some 500000) [c4_listing] :=
  C4_unknown_price_survives (some 500000) [c4_listing] c4_listing (by simp)
    (by decide)

/-! ## Claim C5: total engine failure yields an empty result -/

/-- C5: when both engines fail — raise an exception (absorbed and logged),
are unconfigured, or return no results — their recovered hit lists are empty,
and both search_portals and the search_property_portals tool return the empty
list; in this pure model no exception reaches the caller, matching the
absorbing except-handlers in the code. -/
theorem C5_total_failure_empty (google ddg : EngineOutcome) (mr : Nat)
    (hg : google.recovered = []) (hd : ddg.recovered = []) :
    PortalSearchManager.search_portals google ddg mr = [] ∧
      search_property_portals google ddg mr = [] := by
  have h : PortalSearchManager.search_portals google ddg mr = [] := by
    simp [PortalSearchManager.search_portals, hg, hd]
  exact ⟨h, h⟩

/-- C5 witness: two concrete network failures produce the empty result. -/
theorem C5_witness :
    PortalSearchManager.search_portals (.failure "connection reset")
      (.failure "timeout") 6 = [] ∧
    search_property_portals (.failure "connection reset")
      (.failure "timeout") 6 = [] :=
  C5_total_failure_empty (.failure "connection reset") (.failure "timeout") 6
    rfl rfl

/-! ## Claim C6: affordability thresholds -/

/-- C6: the affordability factor score follows exactly the fixed thresholds on
the repayment-to-income ratio — 10 up to 0.25, 8 up to 0.30, 6 up to 0.35,
4 up to 0.40, 2 beyond — and in particular a ratio of exactly 0.25 scores 10
while 0.251 scores 8. -/
theorem C6_affordability_thresholds (prop : PropertyOption) (user : UserProfile)
    (hinc : 0 < user.gross_monthly_income) :
    (prop.monthly_repayment / user.gross_monthly_income ≤ 0.25 →
      (DecisionSupportEngine.calculate_factor_scores prop user).affordability = 10) ∧
    (0.25 < prop.monthly_repayment / user.gross_monthly_income →
      prop.monthly_repayment / user.gross_monthly_income ≤ 0.30 →
      (DecisionSupportEngine.calculate_factor_scores prop user).affordability = 8) ∧
    (0.30 < prop.monthly_repayment / user.gross_monthly_income →
      prop.monthly_repayment / user.gross_monthly_income ≤ 0.35 →
      (DecisionSupportEngine.calculate_factor_scores prop user).affordability = 6) ∧
    (0.35 < prop.monthly_repayment / user.gross_monthly_income →
      prop.monthly_repayment / user.gross_monthly_income ≤ 0.40 →
      (DecisionSupportEngine.calculate_factor_scores prop user).affordability = 4) ∧
    (0.40 < prop.monthly_repayment / user.gross_monthly_income →
      (DecisionSupportEngine.calculate_factor_scores prop user).affordability = 2) ∧
    (prop.monthly_repayment / user.gross_monthly_income = 0.25 →
      (DecisionSupportEngine.calculate_factor_scores prop user).affordability = 10) ∧
    (prop.monthly_repayment / user.gross_monthly_income = 0.251 →
      (DecisionSupportEngine.calculate_factor_scores prop user).affordability = 8) := by
  rw [affordability_score_eq]
  generalize prop.monthly_repayment / user.gross_monthly_income = r
  refine ⟨?_, ?_, ?_, ?_, ?_, ?_, ?_⟩ <;> intros <;> split_ifs <;>
    first | rfl | linarith

/-- C6 witness: a profile with income 5000 and a repayment of 1250 sits exactly
at the 0.25 boundary and scores 10. -/
theorem C6_witness :
    (0 : ℚ) < 5000 ∧
      (DecisionSupportEngine.calculate_factor_scores
        { property_id := "p1", address := "a", price := 500000,
          property_type := "HDB", size_sqft := 900, rooms := "3-room", age := 5,
          mrt_distance_m := 300, school_rating := 7, amenities_score := 7,
          resale_potential := 7, available_grants := [], monthly_repayment := 1250,
          total_cost_including_grants := 0 }
        { gross_monthly_income := 5000, room_count := "3-room",
          must_have_amenities := [] }).affordability = 10 := by
  refine ⟨by norm_num, ?_⟩
  exact (C6_affordability_thresholds _ _ (by norm_num)).1 (by norm_num)

/-! ## Claim C7: end-to-end decision scenario B -/

/-- C7: analysing a single option with monthly repayment 3000 against an income
of 5000 (ratio 0.60) yields affordability score 2, risk level High with the
debt-ratio warning among the risk factors, and a recommended emergency fund of
18000 (six monthly repayments). -/
theorem C7_scenario_B (prop : PropertyOption) (user : UserProfile)
    (hrep : prop.monthly_repayment = 3000)
    (hinc : user.gross_monthly_income = 5000) :
    ∃ r, DecisionSupportEngine.analyze_options [prop] user = some r ∧
      r.ranked_properties.map (fun e => e.factor_scores.affordability) = [2] ∧
      r.risk_assessment.risk_level = "High" ∧
      "High debt-to-income ratio" ∈ r.risk_assessment.risk_factors ∧
      r.risk_assessment.recommended_emergency_fund = 18000 := by
  have hratio : prop.monthly_repayment / user.gross_monthly_income = 3 / 5 := by
    rw [hrep, hinc]; norm_num
  have key : DecisionSupportEngine.analyze_options [prop] user =
      some { ranked_properties :=
               [{ property := prop
                  factor_scores := DecisionSupportEngine.calculate_factor_scores prop user
                  overall_score := DecisionSupportEngine.calculate_weighted_score
                    (DecisionSupportEngine.calculate_factor_scores prop user) }]
             risk_assessment := DecisionSupportEngine.assess_financial_risk prop user } := by
    simp [DecisionSupportEngine.analyze_options, List.mergeSort_singleton]
  refine ⟨_, key, ?_, ?_, ?_, ?_⟩
  · simp only [List.map_cons, List.map_nil, affordability_score_eq, hratio]
    norm_num
  · simp only [DecisionSupportEngine.assess_financial_risk, hratio]
    norm_num
  · simp only [DecisionSupportEngine.assess_financial_risk, hratio]
    norm_num
    split_ifs <;> simp
  · simp only [DecisionSupportEngine.assess_financial_risk, hrep]
    norm_num

/-- A concrete property option for the C7 witness. -/
def c7_prop : PropertyOption where
  property_id := "p1"
  address := "Blk 1"
  price := 600000
  property_type := "HDB"
  size_sqft := 1000
  rooms := "4-room"
  age := 10
  mrt_distance_m := 400
  school_rating := 7
  amenities_score := 7
  resale_potential := 7
  available_grants := []
  monthly_repayment := 3000
  total_cost_including_grants := 0

/-- A concrete user profile for the C7 witness. -/
def c7_user : UserProfile where
  gross_monthly_income := 5000
  room_count := "3-room"
  must_have_amenities := []

/-- C7 witness: the scenario at a concrete option and profile. -/
theorem C7_witness :
    ∃ r, DecisionSupportEngine.analyze_options [c7_prop] c7_user = some r ∧
      r.ranked_properties.map (fun e => e.factor_scores.affordability) = [2] ∧
      r.risk_assessment.risk_level = "High" ∧
      "High debt-to-income ratio" ∈ r.risk_assessment.risk_factors ∧
      r.risk_assessment.recommended_emergency_fund = 18000 :=
  C7_scenario_B c7_prop c7_user rfl rfl

/-! ## Claim C8: cache TTL and capacity invariants -/

/-- C8 (spec-modelled, the get/set bodies are missing from the source): a key
whose entries are all strictly older than the TTL is never returned by get;
set keeps the cache within the CACHE_MAX_ITEMS capacity; and set only ever
evicts from the least-recently-used end, leaving a suffix of the
recency-ordered list with the fresh entry at the most-recent end. -/
theorem C8_cache_invariants {V : Type} (now t : Nat) (c : List (CacheEntry V))
    (k : String) (v : V)
    (hold : ∀ e ∈ c, e.key = k → e.inserted_at + CACHE_TTL < now) :
    (cache_get now c k).1 = none ∧
    (cache_set t c k v).length ≤ CACHE_MAX_ITEMS ∧
    (cache_set t c k v).IsSuffix
      (c.filter (fun x => x.key != k) ++ [⟨k, t, v⟩]) := by
  refine ⟨?_, ?_, ?_⟩
  · unfold cache_get
    cases hf : c.find? (fun e => e.key == k) with
    | none => rfl
    | some e =>
      have hmem : e ∈ c := List.mem_of_find?_eq_some hf
      have hkey : e.key = k := by
        have := List.find?_some hf
        simpa using this
      have hexp := hold e hmem hkey
      simp only
      rw [if_neg (by omega)]
  · unfold cache_set
    simp only [List.length_drop]
    omega
  · unfold cache_set
    exact List.drop_suffix _ _

/-- C8 witness: a concrete expired entry misses, and a concrete set stays in
capacity and only drops from the stale end. -/
theorem C8_witness :
    (cache_get 100 [⟨"q", 0, 7⟩] "q").1 = (none : Option Nat) ∧
    (cache_set 100 [⟨"q", 0, 7⟩] "q" 9).length ≤ CACHE_MAX_ITEMS ∧
    (cache_set 100 [⟨"q", 0, 7⟩] "q" 9).IsSuffix
      (([⟨"q", 0, 7⟩] : List (CacheEntry Nat)).filter (fun x => x.key != "q") ++
        [⟨"q", 100, 9⟩]) :=
  C8_cache_invariants 100 100 [⟨"q", 0, 7⟩] "q" 9 (by
    intro e he hk
    simp only [List.mem_singleton] at he
    subst he
    simp [CACHE_TTL])

/-! ## Claim C10: factor scores and overall score stay in [0, 10] -/

/-- C10: with amenities score and resale potential in [0, 10], non-negative
grant amounts and a positive income, every one of the six factor scores lies in
[0, 10], and hence the rounded overall weighted score (weights summing to 1)
lies in [0, 10] as well. -/
theorem C10_scores_bounded (prop : PropertyOption) (user : UserProfile)
    (ham0 : 0 ≤ prop.amenities_score) (ham1 : prop.amenities_score ≤ 10)
    (hre0 : 0 ≤ prop.resale_potential) (hre1 : prop.resale_potential ≤ 10)
    (hgr : ∀ g ∈ prop.available_grants, 0 ≤ g.amount)
    (hinc : 0 < user.gross_monthly_income) :
    (0 ≤ (DecisionSupportEngine.calculate_factor_scores prop user).affordability ∧
      (DecisionSupportEngine.calculate_factor_scores prop user).affordability ≤ 10) ∧
    (0 ≤ (DecisionSupportEngine.calculate_factor_scores prop user).location_convenience ∧
      (DecisionSupportEngine.calculate_factor_scores prop user).location_convenience ≤ 10) ∧
    (0 ≤ (DecisionSupportEngine.calculate_factor_scores prop user).investment_potential ∧
      (DecisionSupportEngine.calculate_factor_scores prop user).investment_potential ≤ 10) ∧
    (0 ≤ (DecisionSupportEngine.calculate_factor_scores prop user).lifestyle_fit ∧
      (DecisionSupportEngine.calculate_factor_scores prop user).lifestyle_fit ≤ 10) ∧
    (0 ≤ (DecisionSupportEngine.calculate_factor_scores prop user).grant_eligibility ∧
      (DecisionSupportEngine.calculate_factor_scores prop user).grant_eligibility ≤ 10) ∧
    (0 ≤ (DecisionSupportEngine.calculate_factor_scores prop user).timing ∧
      (DecisionSupportEngine.calculate_factor_scores prop user).timing ≤ 10) ∧
    (0 ≤ DecisionSupportEngine.calculate_weighted_score
        (DecisionSupportEngine.calculate_factor_scores prop user) ∧
      DecisionSupportEngine.calculate_weighted_score
        (DecisionSupportEngine.calculate_factor_scores prop user) ≤ 10) := by
  have ha : 0 ≤ (DecisionSupportEngine.calculate_factor_scores prop user).affordability ∧
      (DecisionSupportEngine.calculate_factor_scores prop user).affordability ≤ 10 := by
    rw [affordability_score_eq]
    split_ifs <;> norm_num
  have hl : 0 ≤ (DecisionSupportEngine.calculate_factor_scores prop user).location_convenience ∧
      (DecisionSupportEngine.calculate_factor_scores prop user).location_convenience ≤ 10 := by
    simp only [DecisionSupportEngine.calculate_factor_scores]
    constructor
    · apply le_min (by norm_num)
      apply div_nonneg _ (by norm_num)
      have h := le_max_left (0 : ℚ) (10 - prop.mrt_distance_m / 100)
      linarith
    · exact min_le_left _ _
  have hi : 0 ≤ (DecisionSupportEngine.calculate_factor_scores prop user).investment_potential ∧
      (DecisionSupportEngine.calculate_factor_scores prop user).investment_potential ≤ 10 := by
    simp only [DecisionSupportEngine.calculate_factor_scores]
    exact ⟨le_max_left _ _, max_le (by norm_num) (min_le_left _ _)⟩
  have hf : 0 ≤ (DecisionSupportEngine.calculate_factor_scores prop user).lifestyle_fit ∧
      (DecisionSupportEngine.calculate_factor_scores prop user).lifestyle_fit ≤ 10 := by
    simp only [DecisionSupportEngine.calculate_factor_scores]
    refine ⟨?_, min_le_left _ _⟩
    apply le_min (by norm_num)
    have hmin : 0 ≤ min (3 : ℚ) (prop.amenities_score / 3) :=
      le_min (by norm_num) (div_nonneg ham0 (by norm_num))
    split_ifs <;> linarith
  have hg : 0 ≤ (DecisionSupportEngine.calculate_factor_scores prop user).grant_eligibility ∧
      (DecisionSupportEngine.calculate_factor_scores prop user).grant_eligibility ≤ 10 := by
    simp only [DecisionSupportEngine.calculate_factor_scores]
    have hsum : 0 ≤ (prop.available_grants.map Grant.amount).sum := by
      apply List.sum_nonneg
      intro x hx
      obtain ⟨g, hgm, rfl⟩ := List.mem_map.mp hx
      exact hgr g hgm
    exact ⟨le_min (by norm_num) (div_nonneg hsum (by norm_num)), min_le_left _ _⟩
  have ht : 0 ≤ (DecisionSupportEngine.calculate_factor_scores prop user).timing ∧
      (DecisionSupportEngine.calculate_factor_scores prop user).timing ≤ 10 := by
    simp only [DecisionSupportEngine.calculate_factor_scores]
    norm_num
  refine ⟨ha, hl, hi, hf, hg, ht, ?_⟩
  simp only [DecisionSupportEngine.calculate_weighted_score]
  exact round2_bounds _
    (by obtain ⟨a1, a2⟩ := ha; obtain ⟨b1, b2⟩ := hl; obtain ⟨c1, c2⟩ := hi
        obtain ⟨d1, d2⟩ := hf; obtain ⟨e1, e2⟩ := hg; obtain ⟨f1, f2⟩ := ht
        linarith)
    (by obtain ⟨a1, a2⟩ := ha; obtain ⟨b1, b2⟩ := hl; obtain ⟨c1, c2⟩ := hi
        obtain ⟨d1, d2⟩ := hf; obtain ⟨e1, e2⟩ := hg; obtain ⟨f1, f2⟩ := ht
        linarith)

/-- C10 witness: the bounds at a concrete option and profile. -/
theorem C10_witness :
    0 ≤ DecisionSupportEngine.calculate_weighted_score
        (DecisionSupportEngine.calculate_factor_scores c7_prop c7_user) ∧
      DecisionSupportEngine.calculate_weighted_score
        (DecisionSupportEngine.calculate_factor_scores c7_prop c7_user) ≤ 10 :=
  (C10_scores_bounded c7_prop c7_user (by norm_num [c7_prop])
    (by norm_num [c7_prop]) (by norm_num [c7_prop]) (by norm_num [c7_prop])
    (by intro g hg; simp [c7_prop] at hg)
    (by norm_num [c7_user])).2.2.2.2.2.2

/-! ## Claim C9: rank monotonicity, stable ties, truncation -/

/-- C9: for two listings identical except that one carries url_validated=true,
every occurrence of the validated one in the output of
filter_and_rank_properties comes strictly before every occurrence of the other
(the validated listing is never ranked below it); listings of equal score keep
their original filtered order through the sort (stable tie-break); and the
output holds at most k items. -/
theorem C9_rank_monotone_stable (results : List Listing) (loc : Option String)
    (mp : Option ℚ) (ft : Option String) (k : Nat) (u v : Listing)
    (hv : v = { u with url_validated := true }) (hu : u.url_validated = false) :
    (∀ (i j : Nat)
       (hi : i < (filter_and_rank_properties results loc mp ft k).length)
       (hj : j < (filter_and_rank_properties results loc mp ft k).length),
       (filter_and_rank_properties results loc mp ft k).get ⟨i, hi⟩ = v →
       (filter_and_rank_properties results loc mp ft k).get ⟨j, hj⟩ = u →
       i < j) ∧
    (∀ a b : Listing, calculate_ranking_score a = calculate_ranking_score b →
       [a, b].Sublist (fr_filtered results loc mp ft) →
       [a, b].Sublist (fr_sorted results loc mp ft)) ∧
    (filter_and_rank_properties results loc mp ft k).length ≤ k := by
  have hscore : calculate_ranking_score u < calculate_ranking_score v := by
    rw [hv]; exact score_validated_gt u hu
  refine ⟨?_, ?_, ?_⟩
  · intro i j hi hj hiv hju
    have hp : List.Pairwise
        (fun a b => calculate_ranking_score b ≤ calculate_ranking_score a)
        (filter_and_rank_properties results loc mp ft k) := by
      unfold filter_and_rank_properties
      split
      · simp
      · exact List.Pairwise.sublist (List.take_sublist _ _)
          (fr_sorted_pairwise results loc mp ft)
    rcases lt_trichotomy i j with h | h | h
    · exact h
    · exfalso
      subst h
      have huv : u = v := by rw [← hju, ← hiv]
      rw [huv] at hscore
      exact lt_irrefl _ hscore
    · exfalso
      have hle := (List.pairwise_iff_get.mp hp) ⟨j, hj⟩ ⟨i, hi⟩ h
      rw [hiv, hju] at hle
      exact absurd hscore (not_lt.mpr hle)
  · intro a b hab hsub
    unfold fr_sorted
    refine List.sublist_mergeSort rank_sort_le_trans rank_sort_le_total ?_ hsub
    refine List.pairwise_cons.mpr ⟨?_, ?_⟩
    · intro x hx
      rw [List.mem_singleton] at hx
      subst hx
      simp [rank_sort_le, hab]
    · simp
  · unfold filter_and_rank_properties
    split
    · simp
    · rw [List.length_take]
      omega

/-- The unvalidated listing of the C9 witness. -/
def c9_u : Listing where
  title := "3 room flat"
  url := "https://www.99.co/listing/7"
  snippet := "bright corner unit"
  domain := "www.99.co"
  source := "google_cse"
  price := some 450000
  rooms := 3
  location := "Tampines"
  url_validated := false
  name := ""
  error := none
  blocked_reason := none
  metadata := none

/-- The validated twin of the C9 witness listing. -/
def c9_v : Listing :=
  { c9_u with url_validated := true }

/-- C9 witness: at a concrete pair of twin listings, the output length bound
and an instance of stable-tie preservation both follow from the theorem. -/
theorem C9_witness :
    ((filter_and_rank_properties [c9_u, c9_v] none none none 3).length ≤ 3) ∧
    [c9_u, c9_u].Sublist (fr_sorted [c9_u, c9_u] none none none) := by
  constructor
  · exact (C9_rank_monotone_stable [c9_u, c9_v] none none none 3 c9_u c9_v rfl
      rfl).2.2
  · refine (C9_rank_monotone_stable [c9_u, c9_u] none none none 3 c9_u c9_v rfl
      rfl).2.1 c9_u c9_u rfl ?_
    rw [show fr_filtered [c9_u, c9_u] none none none = [c9_u, c9_u] from by decide]
